import Mathlib

/-!
Verification of the dev-terminal server (a registry of named PTY sessions with
a bounded output buffer, an HTTP request/response surface and a WebSocket
fan-out). The definitions below are a shallow embedding of the WebSocket
variant of `src/index.ts` together with the shared types of `src/types.ts`
(the `SpecialKeys` table) and the backend interface of `src/backend.ts`.

Modelling conventions:
- JavaScript strings are `List Char`; registry `Map` objects are association
  lists with unique keys (the `Map` invariant), so `Map.delete` is a filter
  and mutation of the entry object aliased by the map is a keyed `map`.
- External collaborators (node-pty / ssh2 backend construction, the
  `strip-ansi` stripper, the `ansi_up`-based SVG rasterizer) are parameters of
  the handlers that use them; a thrown construction error is `Except.error`
  and a rasterization exception is `Option.none`.
- Handlers return, besides the HTTP result and the new server state, the list
  of backend writes and backend constructions they performed, so that "no
  backend call happens" is expressible.
-/

namespace DevTerminal

/-- Model of JavaScript `slice(-n)` on an array or string: `slice(-0)` is
`slice(0)` (the whole list), and for `n > 0` the last `min n l.length`
elements are kept. -/
def jsSliceLast {α : Type} (l : List α) (n : Nat) : List α :=
  if n = 0 then l else l.drop (l.length - n)

/-- Model of JavaScript `text.split("\n")` on a character list. The empty
string splits to `[""]`, and each `'\n'` starts a new segment. -/
def splitNL : List Char → List (List Char)
  | [] => [[]]
  | c :: cs =>
    match splitNL cs with
    | [] => [[]]
    | l :: ls => if c = '\n' then [] :: l :: ls else (c :: l) :: ls

/-- Terminal geometry, from `src/types.ts` `TerminalSize`. -/
structure TerminalSize where
  cols : Nat
  rows : Nat
deriving DecidableEq, Repr

/-- Model of a constructed `TerminalBackend` (`src/backend.ts`): an identity
for the underlying process or channel, and the optional OS process id
(`LocalPtyBackend` has one, `SshPtyBackend.pid` is `undefined`). -/
structure Backend where
  id : Nat
  pid : Option Nat
deriving DecidableEq, Repr

/-- SSH connection options, from `src/types.ts` `SshOptions`. -/
structure SshOptions where
  host : String
  port : Option Nat
  username : String
  password : Option String
  privateKey : Option String
  passphrase : Option String
  agent : Option String
deriving DecidableEq, Repr

/-- Body of POST /terminals, from `src/types.ts` `CreateTerminalRequest`.
Absent optional JSON fields are `none`. -/
structure CreateTerminalRequest where
  name : String
  command : Option String := none
  args : Option (List String) := none
  cols : Option Nat := none
  rows : Option Nat := none
  cwd : Option String := none
  env : Option (List (String × String)) := none
  ssh : Option SshOptions := none
deriving DecidableEq, Repr

/-- Registry value, from `src/index.ts` `TerminalEntry`. `exitCode := none`
models the absent (`undefined`) field. -/
structure TerminalEntry where
  backend : Backend
  name : String
  buffer : List Char
  maxBufferSize : Nat
  alive : Bool
  exitCode : Option Int
  size : TerminalSize
deriving DecidableEq, Repr

/-- Message pushed to WebSocket observers, as the JSON objects passed to
`broadcast` / `ws.send` in `src/index.ts`: a `type` tag plus optional fields,
`none` modelling an absent field. -/
structure WsMessage where
  type : String
  name : Option String := none
  data : Option (List Char) := none
  exitCode : Option Int := none
  size : Option TerminalSize := none
  terminals : Option (List (String × TerminalSize)) := none
deriving DecidableEq, Repr

/-- A connected WebSocket observer: whether its ready state is OPEN, and the
messages it has received. -/
structure WsClient where
  readyStateOpen : Bool
  inbox : List WsMessage
deriving DecidableEq, Repr

/-- Server state: the `registry` map (association list with unique keys) and
the set of WebSocket clients. -/
structure ServerState where
  registry : List (String × TerminalEntry)
  clients : List WsClient
deriving DecidableEq, Repr

/-- A call `backend.write(data)` performed by a handler. -/
structure BackendWrite where
  backendId : Nat
  data : List Char
deriving DecidableEq, Repr

/-- Outcome of an HTTP handler: a JSON body on success, or
`res.status(code).json({error})` on failure. -/
inductive HttpResult (α : Type) where
  | ok (value : α)
  | err (status : Nat) (message : String)
deriving DecidableEq, Repr

/-- Response of POST /terminals, from `src/types.ts`. -/
structure CreateTerminalResponse where
  name : String
  pid : Option Nat
  size : TerminalSize
deriving DecidableEq, Repr

/-- Response of POST /terminals/:name/write, from `src/types.ts`. -/
structure WriteResponse where
  success : Bool
  bytesWritten : Nat
deriving DecidableEq, Repr

/-- Response of GET /terminals/:name/snapshot, from `src/types.ts`. -/
structure SnapshotResponse where
  text : List Char
  raw : List Char
  lines : List (List Char)
  size : TerminalSize
  alive : Bool
  exitCode : Option Int
  svg : Option String
deriving DecidableEq, Repr

/-- Snapshot format query parameter, from `src/types.ts` `SnapshotFormat`. -/
inductive SnapshotFormat where
  | json
  | svg
deriving DecidableEq, Repr

def DEFAULT_COLS : Nat := 120

def DEFAULT_ROWS : Nat := 40

/-- Buffer bound, `MAX_BUFFER_SIZE = 100000` in `src/index.ts`. -/
def MAX_BUFFER_SIZE : Nat := 100000

/-- Model of `registry.get(name)` on the association-list registry. -/
def assocLookup {α : Type} : List (String × α) → String → Option α
  | [], _ => none
  | p :: rest, n => if p.1 = n then some p.2 else assocLookup rest n

/-- Model of mutating the entry object stored under `name` (the map aliases
the mutated object; keys are unique, so a keyed map is exact). -/
def updateEntry (reg : List (String × TerminalEntry)) (name : String)
    (f : TerminalEntry → TerminalEntry) : List (String × TerminalEntry) :=
  reg.map (fun p => if p.1 = name then (p.1, f p.2) else p)

/-- Model of `registry.delete(name)` (keys are unique, so a filter is exact). -/
def removeEntry (reg : List (String × TerminalEntry)) (name : String) :
    List (String × TerminalEntry) :=
  reg.filter (fun p => p.1 != name)

/-- Model of `broadcast(message)`: every client whose ready state is OPEN
receives the message. -/
def broadcastClients (clients : List WsClient) (m : WsMessage) : List WsClient :=
  clients.map (fun c =>
    if c.readyStateOpen then { c with inbox := c.inbox ++ [m] } else c)

/-- Buffer update of the `backend.onData` callback: append, then trim to the
most recent `maxBufferSize` characters via `slice(-maxBufferSize)` when the
length exceeds the bound. -/
def onDataEntry (e : TerminalEntry) (data : List Char) : TerminalEntry :=
  let b := e.buffer ++ data
  { e with buffer := if e.maxBufferSize < b.length then jsSliceLast b e.maxBufferSize else b }

/-- Whole `backend.onData` callback at server level: update the aliased entry
and broadcast a `data` event. The broadcast happens whenever the callback
fires, whether or not the entry is still in the registry. -/
def applyData (st : ServerState) (name : String) (data : List Char) : ServerState :=
  { registry := updateEntry st.registry name (fun e => onDataEntry e data),
    clients := broadcastClients st.clients
      { type := "data", name := some name, data := some data } }

/-- Whole `backend.onExit` callback at server level: flip `alive`, record the
exit code on the aliased entry, and broadcast `{type: "closed", name,
exitCode}`. `code := none` models an `undefined` exit code (the ssh
connection-close path). -/
def applyExit (st : ServerState) (name : String) (code : Option Int) : ServerState :=
  { registry := updateEntry st.registry name
      (fun e => { e with alive := false, exitCode := code }),
    clients := broadcastClients st.clients
      { type := "closed", name := some name, exitCode := code } }

/-- Handler of POST /terminals (get-or-create). Backend construction by the
external node-pty / ssh2 collaborators is the `spawn` parameter;
`Except.error` models a thrown construction error. The final component lists
the backends constructed during the call. -/
def postTerminals (spawn : CreateTerminalRequest → Except String Backend)
    (st : ServerState) (req : CreateTerminalRequest) :
    HttpResult CreateTerminalResponse × ServerState × List Backend :=
  if req.name = "" then
    (.err 400 "name is required and must be a string", st, [])
  else if 256 < req.name.length then
    (.err 400 "name must be 1-256 characters", st, [])
  else
    match assocLookup st.registry req.name with
    | some entry =>
      (.ok { name := req.name, pid := entry.backend.pid, size := entry.size }, st, [])
    | none =>
      let termCols := req.cols.getD DEFAULT_COLS
      let termRows := req.rows.getD DEFAULT_ROWS
      match spawn req with
      | .error msg => (.err 500 ("Failed to create terminal: " ++ msg), st, [])
      | .ok backend =>
        let entry : TerminalEntry :=
          { backend := backend, name := req.name, buffer := [],
            maxBufferSize := MAX_BUFFER_SIZE, alive := true, exitCode := none,
            size := { cols := termCols, rows := termRows } }
        (.ok { name := req.name, pid := backend.pid, size := entry.size },
         { registry := st.registry ++ [(req.name, entry)],
           clients := broadcastClients st.clients
             { type := "created", name := some req.name, size := some entry.size } },
         [backend])

/-- Handler of DELETE /terminals/:name: kill the backend (the final component
lists the killed backend ids), remove the entry, broadcast `{type: "closed",
name}` with no exit code field. -/
def deleteTerminal (st : ServerState) (name : String) :
    HttpResult Unit × ServerState × List Nat :=
  match assocLookup st.registry name with
  | none => (.err 404 "terminal not found", st, [])
  | some entry =>
    (.ok (),
     { registry := removeEntry st.registry name,
       clients := broadcastClients st.clients { type := "closed", name := some name } },
     [entry.backend.id])

/-- Handler of POST /terminals/:name/write. The body's `data` is already a
string here, so the `typeof data !== "string"` branch is not reachable in the
model. The second component lists the backend writes performed. -/
def postWrite (st : ServerState) (name : String) (data : List Char) :
    HttpResult WriteResponse × ServerState × List BackendWrite :=
  match assocLookup st.registry name with
  | none => (.err 404 "terminal not found", st, [])
  | some entry =>
    if entry.alive then
      (.ok { success := true, bytesWritten := data.length }, st,
       [{ backendId := entry.backend.id, data := data }])
    else
      (.err 400 "terminal has exited", st, [])

/-- Handler of GET /terminals/:name/snapshot. The external `strip-ansi`
stripper is the `strip` parameter, and the whole SVG try-block (ansi_up
conversion plus SVG templating) is the `rasterize` parameter, `none` modelling
a caught rasterization exception, after which `svg` stays `undefined`. -/
def getSnapshot (strip : List Char → List Char)
    (rasterize : List Char → TerminalSize → Option String)
    (st : ServerState) (name : String) (format : SnapshotFormat) :
    HttpResult SnapshotResponse :=
  match assocLookup st.registry name with
  | none => .err 404 "terminal not found"
  | some entry =>
    let raw := entry.buffer
    let text := strip raw
    let allLines := splitNL text
    let maxLines := entry.size.rows * 3
    let lines := jsSliceLast allLines maxLines
    let svg := if format = SnapshotFormat.svg then rasterize raw entry.size else none
    .ok { text := text, raw := raw, lines := lines, size := entry.size,
          alive := entry.alive, exitCode := entry.exitCode, svg := svg }

/-- Handler of POST /terminals/:name/clear: reset the buffer to the empty
string, leaving liveness and geometry untouched. -/
def postClear (st : ServerState) (name : String) : HttpResult Unit × ServerState :=
  match assocLookup st.registry name with
  | none => (.err 404 "terminal not found", st)
  | some _ =>
    (.ok (), { st with registry := updateEntry st.registry name (fun e => { e with buffer := [] }) })

/-- First message sent to a newly connected WebSocket observer: the session
list with geometries. -/
def terminalsMsg (reg : List (String × TerminalEntry)) : WsMessage :=
  { type := "terminals",
    terminals := some (reg.map (fun p => (p.1, p.2.size))) }

/-- Messages sent to a newly connected WebSocket observer: first the
`terminals` list with geometries, then one full-buffer `data` event for each
registry entry whose buffer is truthy, i.e. non-empty. -/
def wsConnectInitialMsgs (reg : List (String × TerminalEntry)) : List WsMessage :=
  terminalsMsg reg ::
  (reg.filter (fun p => p.2.buffer != [])).map
    (fun p => { type := "data", name := some p.1, data := some p.2.buffer })

/-- An inbound WebSocket message after `JSON.parse`: the fields the handler
inspects. -/
structure WsInbound where
  type : String
  name : Option String
  data : Option (List Char)
deriving DecidableEq, Repr

/-- JavaScript truthiness of an optional string field: present and non-empty. -/
def truthyStr : Option String → Bool
  | some s => s != ""
  | none => false

/-- JavaScript truthiness of an optional string-of-characters field. -/
def truthyChars : Option (List Char) → Bool
  | some l => l != []
  | none => false

/-- Handler of inbound WebSocket messages (`ws.on("message")` in
`src/index.ts`): `none` models a message on which `JSON.parse` threw, caught
and ignored. A valid `input` message for a live session is forwarded to the
session's backend; everything else is dropped. The handler sends nothing back
and performs no registry mutation; the returned state and message list make
that explicit. -/
def handleWsMessage (st : ServerState) (msg : Option WsInbound) :
    ServerState × List BackendWrite × List WsMessage :=
  match msg with
  | none => (st, [], [])
  | some m =>
    if m.type = "input" ∧ truthyStr m.name ∧ truthyChars m.data then
      match m.name, m.data with
      | some n, some d =>
        match assocLookup st.registry n with
        | some entry =>
          if entry.alive then (st, [{ backendId := entry.backend.id, data := d }], [])
          else (st, [], [])
        | none => (st, [], [])
      | _, _ => (st, [], [])
    else (st, [], [])

/-- Symbolic key table, from `src/types.ts` `SpecialKeys`, in source order. -/
def SpecialKeys : List (String × List Char) :=
  [("up", "\x1b[A".toList),
   ("down", "\x1b[B".toList),
   ("right", "\x1b[C".toList),
   ("left", "\x1b[D".toList),
   ("enter", "\r".toList),
   ("tab", "\t".toList),
   ("escape", "\x1b".toList),
   ("backspace", "\x7f".toList),
   ("delete", "\x1b[3~".toList),
   ("ctrl+c", "\x03".toList),
   ("ctrl+d", "\x04".toList),
   ("ctrl+z", "\x1a".toList),
   ("ctrl+l", "\x0c".toList),
   ("ctrl+a", "\x01".toList),
   ("ctrl+e", "\x05".toList),
   ("ctrl+k", "\x0b".toList),
   ("ctrl+u", "\x15".toList),
   ("ctrl+w", "\x17".toList),
   ("ctrl+r", "\x12".toList),
   ("f1", "\x1bOP".toList),
   ("f2", "\x1bOQ".toList),
   ("f3", "\x1bOR".toList),
   ("f4", "\x1bOS".toList),
   ("f5", "\x1b[15~".toList),
   ("f6", "\x1b[17~".toList),
   ("f7", "\x1b[18~".toList),
   ("f8", "\x1b[19~".toList),
   ("f9", "\x1b[20~".toList),
   ("f10", "\x1b[21~".toList),
   ("f11", "\x1b[23~".toList),
   ("f12", "\x1b[24~".toList),
   ("home", "\x1b[H".toList),
   ("end", "\x1b[F".toList),
   ("pageup", "\x1b[5~".toList),
   ("pagedown", "\x1b[6~".toList),
   ("insert", "\x1b[2~".toList)]

/-- Written to the spec's words for the snapshot line view (refinement side of
the comparison): the plain text split on line breaks, truncated to its suffix
of length `min(total line count, rows * 3)`. -/
def specLinesView (text : List Char) (rows : Nat) : List (List Char) :=
  let ls := splitNL text
  ls.drop (ls.length - min ls.length (rows * 3))

/-- Buffer field of the `onData` callback in isolation: append the new chunk
and trim from the front if the bound is exceeded. -/
def trimConcat (bound : Nat) (buf d : List Char) : List Char :=
  let b := buf ++ d
  if bound < b.length then jsSliceLast b bound else b

/-- Sample freshly created entry used for concrete instantiations. -/
def sampleEntry (bound : Nat) : TerminalEntry :=
  { backend := ⟨0, some 1⟩, name := "t", buffer := [], maxBufferSize := bound,
    alive := true, exitCode := none, size := ⟨80, 24⟩ }

theorem jsSliceLast_pos {α : Type} (l : List α) {n : Nat} (h : 0 < n) :
    jsSliceLast l n = l.drop (l.length - n) := by
  unfold jsSliceLast
  rw [if_neg (Nat.pos_iff_ne_zero.mp h)]

theorem onDataEntry_buffer (e : TerminalEntry) (d : List Char) :
    (onDataEntry e d).buffer = trimConcat e.maxBufferSize e.buffer d := rfl

theorem onDataEntry_maxBufferSize (e : TerminalEntry) (d : List Char) :
    (onDataEntry e d).maxBufferSize = e.maxBufferSize := rfl

theorem trimConcat_suffix (bound : Nat) (h : 0 < bound) (s d : List Char) :
    trimConcat bound (s.drop (s.length - bound)) d
      = (s ++ d).drop ((s ++ d).length - bound) := by
  have hk : s.length - bound ≤ s.length := Nat.sub_le _ _
  have hsplit : (s ++ d).drop (s.length - bound) = s.drop (s.length - bound) ++ d :=
    List.drop_append_of_le_length hk
  unfold trimConcat
  by_cases hc : bound < (s.drop (s.length - bound) ++ d).length
  · rw [if_pos hc, jsSliceLast_pos _ h, ← hsplit, List.drop_drop]
    congr 1
    simp only [List.length_append, List.length_drop] at *
    omega
  · rw [if_neg hc, ← hsplit]
    congr 1
    simp only [List.length_append, List.length_drop] at *
    omega

theorem foldl_onDataEntry_maxBufferSize (ds : List (List Char)) (e : TerminalEntry) :
    (ds.foldl onDataEntry e).maxBufferSize = e.maxBufferSize := by
  induction ds generalizing e with
  | nil => rfl
  | cons d ds ih =>
    rw [List.foldl_cons]
    exact ih (onDataEntry e d)

theorem foldl_onDataEntry_suffix (bound : Nat) (h : 0 < bound) (ds : List (List Char))
    (e : TerminalEntry) (s : List Char) (hm : e.maxBufferSize = bound)
    (hb : e.buffer = s.drop (s.length - bound)) :
    (ds.foldl onDataEntry e).buffer = (s ++ ds.flatten).drop ((s ++ ds.flatten).length - bound) := by
  induction ds generalizing e s with
  | nil =>
    simpa using hb
  | cons d ds ih =>
    rw [List.foldl_cons]
    have h1 : (onDataEntry e d).buffer = (s ++ d).drop ((s ++ d).length - bound) := by
      rw [onDataEntry_buffer, hm, hb, trimConcat_suffix bound h]
    have h2 := ih (onDataEntry e d) (s ++ d)
      (by rw [onDataEntry_maxBufferSize, hm]) h1
    rw [h2, List.flatten_cons, ← List.append_assoc]

/-- C1: for every sequence of data events appended to a session's output
buffer (each append followed by the trim step), starting from the empty buffer
of a fresh (or just-cleared) session, the retained buffer length never exceeds
the configured bound, and the retained content is exactly the suffix of length
`min (total length) bound` of the concatenation of all appended data. -/
theorem buffer_trim_bound_and_suffix (bound : Nat) (h : 0 < bound)
    (e : TerminalEntry) (hm : e.maxBufferSize = bound) (hb : e.buffer = [])
    (ds : List (List Char)) :
    (ds.foldl onDataEntry e).buffer.length ≤ bound ∧
    (ds.foldl onDataEntry e).buffer.length = min ds.flatten.length bound ∧
    (ds.foldl onDataEntry e).buffer = ds.flatten.drop (ds.flatten.length - bound) := by
  have hs := foldl_onDataEntry_suffix bound h ds e [] hm (by simpa using hb)
  simp only [List.nil_append] at hs
  refine ⟨?_, ?_, hs⟩
  · rw [hs, List.length_drop]
    omega
  · rw [hs, List.length_drop]
    omega

/-- Witness for C1 at a concrete input: bound 3, appends "ab", "cde", "f";
the retained buffer is the 3-character suffix "def" of "abcdef". -/
theorem buffer_trim_bound_and_suffix_witness :
    ([['a','b'],['c','d','e'],['f']].foldl onDataEntry (sampleEntry 3)).buffer.length ≤ 3 ∧
    ([['a','b'],['c','d','e'],['f']].foldl onDataEntry (sampleEntry 3)).buffer.length
      = min [['a','b'],['c','d','e'],['f']].flatten.length 3 ∧
    ([['a','b'],['c','d','e'],['f']].foldl onDataEntry (sampleEntry 3)).buffer
      = [['a','b'],['c','d','e'],['f']].flatten.drop
          ([['a','b'],['c','d','e'],['f']].flatten.length - 3) :=
  buffer_trim_bound_and_suffix 3 (by decide) (sampleEntry 3) rfl rfl _

theorem assocLookup_append {α : Type} (reg : List (String × α)) (n : String) (e : α)
    (h : assocLookup reg n = none) :
    assocLookup (reg ++ [(n, e)]) n = some e := by
  induction reg with
  | nil => simp [assocLookup]
  | cons p rest ih =>
    rw [List.cons_append]
    unfold assocLookup at h ⊢
    by_cases hp : p.1 = n
    · rw [if_pos hp] at h
      exact absurd h (by simp)
    · rw [if_neg hp] at h ⊢
      exact ih h

/-- Spawn function used in concrete instantiations: every construction
succeeds with backend id 7, pid 42. -/
def spawnA : CreateTerminalRequest → Except String Backend := fun _ => .ok ⟨7, some 42⟩

/-- Second spawn function, distinguishable from `spawnA`. -/
def spawnB : CreateTerminalRequest → Except String Backend := fun _ => .ok ⟨8, some 43⟩

/-- Concrete first creation request: name "t", 80×24. -/
def reqFirst : CreateTerminalRequest := { name := "t", cols := some 80, rows := some 24 }

/-- Concrete second creation request for the same name with every spec field
different from the first. -/
def reqSecond : CreateTerminalRequest :=
  { name := "t", command := some "zsh", args := some ["-x"], cols := some 10, rows := some 99,
    cwd := some "/tmp", env := some [("A", "B")],
    ssh := some { host := "h", port := none, username := "u", password := none,
                  privateKey := none, passphrase := none, agent := none } }

/-- Empty server state. -/
def stEmpty : ServerState := { registry := [], clients := [] }

/-- C2: getOrCreate is idempotent. After a first successful creation, a second
POST /terminals with the same name — whatever its command, args, geometry,
cwd, env or ssh fields, and whatever backend a fresh construction would yield
— answers with the existing session's pid and the size established at first
creation, constructs no backend, and leaves the server state (hence the
stored session's backend, buffer, size and liveness) unchanged. -/
theorem getOrCreate_idempotent
    (spawn1 spawn2 : CreateTerminalRequest → Except String Backend)
    (st : ServerState) (req1 req2 : CreateTerminalRequest) (b : Backend)
    (hn : ¬ req1.name = "") (hl : ¬ 256 < req1.name.length)
    (hfresh : assocLookup st.registry req1.name = none)
    (hspawn : spawn1 req1 = Except.ok b)
    (hsame : req2.name = req1.name) :
    postTerminals spawn2 ((postTerminals spawn1 st req1).2.1) req2 =
      (HttpResult.ok
        { name := req1.name, pid := b.pid,
          size := { cols := req1.cols.getD DEFAULT_COLS, rows := req1.rows.getD DEFAULT_ROWS } },
       (postTerminals spawn1 st req1).2.1, []) := by
  have hst1 : (postTerminals spawn1 st req1).2.1 =
      { registry := st.registry ++
          [(req1.name,
            { backend := b, name := req1.name, buffer := [],
              maxBufferSize := MAX_BUFFER_SIZE, alive := true, exitCode := none,
              size := { cols := req1.cols.getD DEFAULT_COLS,
                        rows := req1.rows.getD DEFAULT_ROWS } })],
        clients := broadcastClients st.clients
          { type := "created", name := some req1.name,
            size := some { cols := req1.cols.getD DEFAULT_COLS,
                           rows := req1.rows.getD DEFAULT_ROWS } } } := by
    simp only [postTerminals, if_neg hn, if_neg hl, hfresh, hspawn]
  rw [hst1]
  simp only [postTerminals, hsame, if_neg hn, if_neg hl]
  rw [show assocLookup
        (st.registry ++
          [(req1.name,
            { backend := b, name := req1.name, buffer := [],
              maxBufferSize := MAX_BUFFER_SIZE, alive := true, exitCode := none,
              size := { cols := req1.cols.getD DEFAULT_COLS,
                        rows := req1.rows.getD DEFAULT_ROWS } })]) req1.name = some _
      from assocLookup_append _ _ _ hfresh]

/-- Witness for C2 at a concrete input: a second create for "t" with an
entirely different spec returns pid 42 and the original 80×24 size, changing
nothing. -/
theorem getOrCreate_idempotent_witness :
    postTerminals spawnB ((postTerminals spawnA stEmpty reqFirst).2.1) reqSecond =
      (HttpResult.ok { name := "t", pid := some 42, size := { cols := 80, rows := 24 } },
       (postTerminals spawnA stEmpty reqFirst).2.1, []) := by
  have h := getOrCreate_idempotent spawnA spawnB stEmpty reqFirst reqSecond ⟨7, some 42⟩
    (by decide) (by decide) rfl rfl rfl
  simpa using h

theorem lookup_updateEntry (reg : List (String × TerminalEntry)) (n : String)
    (f : TerminalEntry → TerminalEntry) :
    assocLookup (updateEntry reg n f) n = (assocLookup reg n).map f := by
  induction reg with
  | nil => rfl
  | cons p rest ih =>
    unfold updateEntry at ih ⊢
    rw [List.map_cons]
    by_cases hp : p.1 = n
    · simp [assocLookup, hp]
    · simp only [if_neg hp, assocLookup, ih]

theorem lookup_removeEntry (reg : List (String × TerminalEntry)) (n : String) :
    assocLookup (removeEntry reg n) n = none := by
  induction reg with
  | nil => rfl
  | cons p rest ih =>
    unfold removeEntry at ih ⊢
    rw [List.filter_cons]
    by_cases hp : p.1 = n
    · simp [hp, ih]
    · simp [bne_iff_ne, hp, assocLookup, ih]

/-- Live sample entry stored under name "t", backend id 7, pid 42. -/
def entryLive : TerminalEntry :=
  { backend := ⟨7, some 42⟩, name := "t", buffer := "hi".toList,
    maxBufferSize := MAX_BUFFER_SIZE, alive := true, exitCode := none, size := ⟨80, 24⟩ }

/-- Dead variant of `entryLive`. -/
def entryDead : TerminalEntry := { entryLive with alive := false, exitCode := some 0 }

/-- State holding only the live sample entry. -/
def stLive : ServerState := { registry := [("t", entryLive)], clients := [] }

/-- State holding only the dead sample entry. -/
def stDead : ServerState := { registry := [("t", entryDead)], clients := [] }

/-- Rasterizer that fails on every input (every attempt throws and is
caught). -/
def noRaster : List Char → TerminalSize → Option String := fun _ _ => none

/-- C3: dispatch of POST /terminals/:name/write. An unknown name fails 404
not-found; a known but non-live session fails 400 invalid-state with no
backend write; a live session gets exactly one backend write of the data and
a success response. The state is unchanged in every case. -/
theorem write_dispatch (st : ServerState) (name : String) (data : List Char) :
    (assocLookup st.registry name = none →
      postWrite st name data = (HttpResult.err 404 "terminal not found", st, [])) ∧
    (∀ e, assocLookup st.registry name = some e → e.alive = false →
      postWrite st name data = (HttpResult.err 400 "terminal has exited", st, [])) ∧
    (∀ e, assocLookup st.registry name = some e → e.alive = true →
      postWrite st name data =
        (HttpResult.ok { success := true, bytesWritten := data.length }, st,
         [{ backendId := e.backend.id, data := data }])) := by
  refine ⟨fun h => ?_, fun e he ha => ?_, fun e he ha => ?_⟩
  · simp [postWrite, h]
  · simp [postWrite, he, ha]
  · simp [postWrite, he, ha]

/-- Witness for C3 at concrete inputs: missing session, dead session, live
session. -/
theorem write_dispatch_witness :
    postWrite stEmpty "t" ['h'] = (HttpResult.err 404 "terminal not found", stEmpty, []) ∧
    postWrite stDead "t" ['h'] = (HttpResult.err 400 "terminal has exited", stDead, []) ∧
    postWrite stLive "t" ['h'] =
      (HttpResult.ok { success := true, bytesWritten := 1 }, stLive,
       [{ backendId := 7, data := ['h'] }]) :=
  ⟨(write_dispatch stEmpty "t" ['h']).1 rfl,
   (write_dispatch stDead "t" ['h']).2.1 entryDead rfl rfl,
   (write_dispatch stLive "t" ['h']).2.2 entryLive rfl rfl⟩

/-- C4: natural backend exit does not remove the session. After the exit
event, the entry is still registered with liveness false and the exit code
recorded, and snapshot still succeeds, returning the last buffer state with
alive false and that exit code; explicit close then succeeds, removes the
entry, and a subsequent snapshot fails 404 not-found. -/
theorem exit_keeps_session_until_close (strip : List Char → List Char)
    (rasterize : List Char → TerminalSize → Option String)
    (st : ServerState) (name : String) (e : TerminalEntry) (c : Int)
    (he : assocLookup st.registry name = some e) :
    assocLookup (applyExit st name (some c)).registry name
      = some { e with alive := false, exitCode := some c } ∧
    getSnapshot strip rasterize (applyExit st name (some c)) name SnapshotFormat.json =
      HttpResult.ok
        { text := strip e.buffer, raw := e.buffer,
          lines := jsSliceLast (splitNL (strip e.buffer)) (e.size.rows * 3),
          size := e.size, alive := false, exitCode := some c, svg := none } ∧
    (deleteTerminal (applyExit st name (some c)) name).1 = HttpResult.ok () ∧
    assocLookup ((deleteTerminal (applyExit st name (some c)) name).2.1).registry name = none ∧
    getSnapshot strip rasterize ((deleteTerminal (applyExit st name (some c)) name).2.1) name
      SnapshotFormat.json = HttpResult.err 404 "terminal not found" := by
  have h1 : assocLookup (applyExit st name (some c)).registry name
      = some { e with alive := false, exitCode := some c } := by
    simp [applyExit, lookup_updateEntry, he]
  refine ⟨h1, ?_, ?_, ?_, ?_⟩
  · simp [getSnapshot, h1]
  · simp [deleteTerminal, h1]
  · simp [deleteTerminal, applyExit, lookup_updateEntry, he, lookup_removeEntry]
  · simp [getSnapshot, deleteTerminal, applyExit, lookup_updateEntry, he, lookup_removeEntry]

/-- Witness for C4 at a concrete input: the live sample session exits with
code 0; snapshot still answers, close removes, snapshot then 404s. -/
theorem exit_keeps_session_until_close_witness :
    assocLookup (applyExit stLive "t" (some 0)).registry "t"
      = some { entryLive with alive := false, exitCode := some 0 } ∧
    getSnapshot id noRaster (applyExit stLive "t" (some 0)) "t" SnapshotFormat.json =
      HttpResult.ok
        { text := id entryLive.buffer, raw := entryLive.buffer,
          lines := jsSliceLast (splitNL (id entryLive.buffer)) (entryLive.size.rows * 3),
          size := entryLive.size, alive := false, exitCode := some 0, svg := none } ∧
    (deleteTerminal (applyExit stLive "t" (some 0)) "t").1 = HttpResult.ok () ∧
    assocLookup ((deleteTerminal (applyExit stLive "t" (some 0)) "t").2.1).registry "t" = none ∧
    getSnapshot id noRaster ((deleteTerminal (applyExit stLive "t" (some 0)) "t").2.1) "t"
      SnapshotFormat.json = HttpResult.err 404 "terminal not found" :=
  exit_keeps_session_until_close id noRaster stLive "t" entryLive 0 rfl

/-- Observer with open ready state and empty inbox. -/
def observerFresh : WsClient := { readyStateOpen := true, inbox := [] }

/-- State holding the live sample entry and one connected observer. -/
def stLiveObs : ServerState := { registry := [("t", entryLive)], clients := [observerFresh] }

/-- C5 counterexample: on natural exit of the live session, the single
connected observer receives exactly one lifecycle event and its type is
"closed", not "exited"; no event of type "exited" is ever sent. -/
theorem exit_event_type_counterexample :
    (applyExit stLiveObs "t" (some 0)).clients
      = [{ readyStateOpen := true,
           inbox := [{ type := "closed", name := some "t", exitCode := some 0 }] }] ∧
    ((applyExit stLiveObs "t" (some 0)).clients.all
      (fun cl => cl.inbox.all (fun m => m.type != "exited"))) = true := by
  decide

/-- C5 as amended: when a session's process exits naturally, every
currently-connected observer whose ready state is OPEN receives the lifecycle
event `{type: "closed", name, exitCode}` — the code uses type "closed" for
process exit (carrying the exit code) as well as for explicit close (without
one); no "exited" event type exists. -/
theorem exit_broadcast_closed_to_observers (st : ServerState) (name : String)
    (c : Option Int) (cl : WsClient) (hmem : cl ∈ st.clients)
    (hopen : cl.readyStateOpen = true) :
    { cl with inbox := cl.inbox ++
        [{ type := "closed", name := some name, exitCode := c }] } ∈
      (applyExit st name c).clients := by
  have hcl : (fun cc : WsClient =>
      if cc.readyStateOpen then
        { cc with inbox := cc.inbox ++
            [{ type := "closed", name := some name, exitCode := c }] }
      else cc) cl
      = { cl with inbox := cl.inbox ++
          [{ type := "closed", name := some name, exitCode := c }] } := by
    show (if cl.readyStateOpen then
        { cl with inbox := cl.inbox ++
            [{ type := "closed", name := some name, exitCode := c }] }
      else cl) = _
    rw [if_pos hopen]
  rw [← hcl]
  exact List.mem_map_of_mem _ hmem

/-- Witness for C5's amended theorem at a concrete input. -/
theorem exit_broadcast_closed_to_observers_witness :
    { observerFresh with inbox := observerFresh.inbox ++
        [{ type := "closed", name := some "t", exitCode := some 0 }] } ∈
      (applyExit stLiveObs "t" (some 0)).clients :=
  exit_broadcast_closed_to_observers stLiveObs "t" (some 0) observerFresh
    (by simp [stLiveObs]) rfl

theorem countP_assoc_not_mem {α : Type} (reg : List (String × α)) (n : String)
    (q : String × α → Bool) (h : n ∉ reg.map Prod.fst) :
    reg.countP (fun p => (p.1 == n) && q p) = 0 := by
  induction reg with
  | nil => rfl
  | cons p rest ih =>
    simp only [List.map_cons, List.mem_cons] at h
    push_neg at h
    rw [List.countP_cons]
    have hp : (p.1 == n) = false := by
      simp only [beq_eq_false_iff_ne, ne_eq]
      exact fun hq => h.1 hq.symm
    simp [hp, ih h.2]

theorem countP_assoc_nodup {α : Type} (reg : List (String × α)) (n : String) (x : α)
    (q : String × α → Bool) (hnd : (reg.map Prod.fst).Nodup) (hm : (n, x) ∈ reg) :
    reg.countP (fun p => (p.1 == n) && q p) = if q (n, x) then 1 else 0 := by
  induction reg with
  | nil => simp at hm
  | cons p rest ih =>
    rw [List.map_cons, List.nodup_cons] at hnd
    rw [List.countP_cons]
    rcases List.mem_cons.mp hm with hcase | hcase
    · have h0 : rest.countP (fun p => (p.1 == n) && q p) = 0 := by
        refine countP_assoc_not_mem rest n q ?_
        rw [← hcase] at hnd
        exact hnd.1
      rw [h0, ← hcase]
      simp
    · have hne : (p.1 == n) = false := by
        simp only [beq_eq_false_iff_ne, ne_eq]
        intro hq
        exact hnd.1 (hq ▸ List.mem_map_of_mem Prod.fst hcase)
      simp [hne, ih hnd.2 hcase]

theorem assocLookup_of_mem_nodup {α : Type} (reg : List (String × α))
    (hnd : (reg.map Prod.fst).Nodup) (n : String) (x : α) (hm : (n, x) ∈ reg) :
    assocLookup reg n = some x := by
  induction reg with
  | nil => simp at hm
  | cons p rest ih =>
    rw [List.map_cons, List.nodup_cons] at hnd
    rcases List.mem_cons.mp hm with hcase | hcase
    · rw [← hcase]
      simp [assocLookup]
    · have hne : ¬ p.1 = n := by
        intro hq
        exact hnd.1 (hq ▸ List.mem_map_of_mem Prod.fst hcase)
      unfold assocLookup
      rw [if_neg hne]
      exact ih hnd.2 hcase

/-- C6 counterexample: a freshly created session is live but has an empty
buffer, and a newly connected observer receives no synthetic data event for
it — the code replays only sessions whose buffer is non-empty, not all live
sessions. -/
theorem wsConnect_live_session_counterexample :
    (assocLookup (postTerminals spawnA stEmpty reqFirst).2.1.registry "t").map
      (fun e => e.alive) = some true ∧
    (wsConnectInitialMsgs (postTerminals spawnA stEmpty reqFirst).2.1.registry).countP
      (fun m => m.type == "data" && m.name == some "t") = 0 := by
  decide

/-- C6 as amended: a newly connected observer first receives the full session
list with geometries, then exactly one synthetic full-buffer data event per
session whose buffer is non-empty (regardless of liveness) — no session gets
more than one, sessions with empty buffers (in particular freshly created
live ones) get none, and nothing else is replayed. -/
theorem wsConnect_initial_messages (reg : List (String × TerminalEntry))
    (hnd : (reg.map Prod.fst).Nodup) (n : String) (e : TerminalEntry)
    (hmem : (n, e) ∈ reg) :
    (wsConnectInitialMsgs reg).head? = some (terminalsMsg reg) ∧
    (wsConnectInitialMsgs reg).countP (fun m => m.type == "data" && m.name == some n)
      = (if e.buffer = [] then 0 else 1) ∧
    (∀ m ∈ wsConnectInitialMsgs reg,
      m.type = "data" → m.name = some n → m.data = some e.buffer) := by
  refine ⟨rfl, ?_, ?_⟩
  · rw [wsConnectInitialMsgs, List.countP_cons, List.countP_map, List.countP_filter]
    have hpred : (fun (a : String × TerminalEntry) =>
        ((fun m : WsMessage => m.type == "data" && m.name == some n) ∘
          (fun p : String × TerminalEntry =>
            { type := "data", name := some p.1, data := some p.2.buffer })) a
          && (a.2.buffer != [])) = (fun a => (a.1 == n) && (a.2.buffer != [])) := by
      funext a
      simp only [Function.comp_apply, Option.some_beq_some,
        show (("data" : String) == "data") = true from by decide, Bool.true_and]
    rw [hpred, countP_assoc_nodup reg n e _ hnd hmem]
    simp only [show (((terminalsMsg reg).type == "data")) = false from rfl,
      Bool.false_and, if_neg Bool.false_ne_true, Nat.add_zero]
    by_cases hb : e.buffer = []
    · simp [hb]
    · simp [hb]
  · intro m hm ht hn2
    rw [wsConnectInitialMsgs] at hm
    rcases List.mem_cons.mp hm with hcase | hcase
    · rw [hcase] at ht
      simp [terminalsMsg] at ht
    · rcases List.mem_map.mp hcase with ⟨p, hp, hfp⟩
      rcases List.mem_filter.mp hp with ⟨hpreg, hpbuf⟩
      rw [← hfp] at hn2 ⊢
      have hp1 : p.1 = n := by simpa using hn2
      have hpe : p.2 = e := by
        have h1 := assocLookup_of_mem_nodup reg hnd n p.2 (by rw [← hp1]; simpa using hpreg)
        rw [assocLookup_of_mem_nodup reg hnd n e hmem] at h1
        exact (Option.some_inj.mp h1.symm)
      simp [hpe]

/-- Second live sample entry, with an empty buffer. -/
def entryFresh : TerminalEntry :=
  { backend := ⟨9, some 44⟩, name := "b", buffer := [], maxBufferSize := MAX_BUFFER_SIZE,
    alive := true, exitCode := none, size := ⟨120, 40⟩ }

/-- Two-session registry: "t" with buffered output, "b" freshly created. -/
def regTwo : List (String × TerminalEntry) := [("t", entryLive), ("b", entryFresh)]

/-- Witness for C6's amended theorem at a concrete input: session "t" with a
non-empty buffer gets exactly one synthetic data event after the session
list. -/
theorem wsConnect_initial_messages_witness :
    (wsConnectInitialMsgs regTwo).head? = some (terminalsMsg regTwo) ∧
    (wsConnectInitialMsgs regTwo).countP
      (fun m => m.type == "data" && m.name == some "t") = 1 := by
  have h := wsConnect_initial_messages regTwo (by decide) "t" entryLive (by decide)
  refine ⟨h.1, ?_⟩
  have h2 := h.2.1
  rw [if_neg (by decide : ¬ entryLive.buffer = [])] at h2
  exact h2

/-- Create request carrying rows 0: JSON `rows: 0` is not nullish, so
`rows ?? DEFAULT_ROWS` keeps it. -/
def reqRowsZero : CreateTerminalRequest := { name := "t", cols := some 120, rows := some 0 }

/-- State reached by creating "t" with rows 0 and then receiving the output
chunk "a\nb". -/
def stRowsZero : ServerState :=
  applyData ((postTerminals spawnA stEmpty reqRowsZero).2.1) "t" "a\nb".toList

/-- C7 counterexample: a session created with rows 0 stores row count 0, and
its snapshot line view is the whole split line list (JavaScript `slice(-0)`
is `slice(0)`), not the claimed suffix of length `min(total, rows*3) = 0`. -/
theorem snapshot_lines_counterexample :
    (assocLookup stRowsZero.registry "t").map (fun e => e.size.rows) = some 0 ∧
    getSnapshot id noRaster stRowsZero "t" SnapshotFormat.json =
      HttpResult.ok
        { text := "a\nb".toList, raw := "a\nb".toList,
          lines := [['a'], ['b']], size := ⟨120, 0⟩,
          alive := true, exitCode := none, svg := none } ∧
    specLinesView "a\nb".toList 0 = [] ∧
    ([['a'], ['b']] : List (List Char)) ≠ [] := by
  decide

/-- C7 as amended: for every session whose stored row count is at least 1,
the snapshot's line view equals the plain text split on line breaks and
truncated to its suffix of length `min(total line count, rows * 3)`; for a
stored row count of 0 the whole line list is returned instead. -/
theorem snapshot_lines_spec (strip : List Char → List Char)
    (rasterize : List Char → TerminalSize → Option String)
    (st : ServerState) (name : String) (e : TerminalEntry)
    (he : assocLookup st.registry name = some e) (hr : 0 < e.size.rows) :
    getSnapshot strip rasterize st name SnapshotFormat.json =
      HttpResult.ok
        { text := strip e.buffer, raw := e.buffer,
          lines := specLinesView (strip e.buffer) e.size.rows,
          size := e.size, alive := e.alive, exitCode := e.exitCode, svg := none } := by
  have hk : 0 < e.size.rows * 3 := by omega
  have hlines : jsSliceLast (splitNL (strip e.buffer)) (e.size.rows * 3)
      = specLinesView (strip e.buffer) e.size.rows := by
    rw [jsSliceLast_pos _ hk]
    simp only [specLinesView]
    congr 1
    omega
  simp [getSnapshot, he, hlines]

/-- Witness for C7's amended theorem at a concrete input (rows 24). -/
theorem snapshot_lines_spec_witness :
    getSnapshot id noRaster stLive "t" SnapshotFormat.json =
      HttpResult.ok
        { text := id entryLive.buffer, raw := entryLive.buffer,
          lines := specLinesView (id entryLive.buffer) entryLive.size.rows,
          size := entryLive.size, alive := entryLive.alive, exitCode := entryLive.exitCode,
          svg := none } :=
  snapshot_lines_spec id noRaster stLive "t" entryLive rfl (by decide)

/-- C8: the symbolic key table maps "enter" to the single byte 13 (carriage
return), "ctrl+c" to the single byte 3, and "up" to the three-byte CSI
sequence 27, 91, 65; and the write path forwards any data, these sequences
included, to the backend verbatim as a single write. -/
theorem special_keys_exact (st : ServerState) (name : String) (e : TerminalEntry)
    (he : assocLookup st.registry name = some e) (ha : e.alive = true) :
    (assocLookup SpecialKeys "enter").map (fun l => l.map Char.toNat) = some [13] ∧
    (assocLookup SpecialKeys "ctrl+c").map (fun l => l.map Char.toNat) = some [3] ∧
    (assocLookup SpecialKeys "up").map (fun l => l.map Char.toNat) = some [27, 91, 65] ∧
    (∀ s : List Char, postWrite st name s =
      (HttpResult.ok { success := true, bytesWritten := s.length }, st,
       [{ backendId := e.backend.id, data := s }])) := by
  refine ⟨by decide, by decide, by decide, fun s => ?_⟩
  simp [postWrite, he, ha]

/-- Witness for C8 at a concrete input: the live sample session receives the
arrow-up sequence unaltered. -/
theorem special_keys_exact_witness :
    (assocLookup SpecialKeys "enter").map (fun l => l.map Char.toNat) = some [13] ∧
    (assocLookup SpecialKeys "ctrl+c").map (fun l => l.map Char.toNat) = some [3] ∧
    (assocLookup SpecialKeys "up").map (fun l => l.map Char.toNat) = some [27, 91, 65] ∧
    postWrite stLive "t" "\x1b[A".toList =
      (HttpResult.ok { success := true, bytesWritten := 3 }, stLive,
       [{ backendId := 7, data := "\x1b[A".toList }]) :=
  ⟨(special_keys_exact stLive "t" entryLive rfl rfl).1,
   (special_keys_exact stLive "t" entryLive rfl rfl).2.1,
   (special_keys_exact stLive "t" entryLive rfl rfl).2.2.1,
   (special_keys_exact stLive "t" entryLive rfl rfl).2.2.2 "\x1b[A".toList⟩

/-- C9: when the rasterizer fails on the session's buffer, a svg-format
snapshot of an existing session still succeeds, returning every
non-rasterized field computed from the current buffer, with the svg field
absent — it coincides with the json-format snapshot. -/
theorem snapshot_svg_failure_graceful (strip : List Char → List Char)
    (rasterize : List Char → TerminalSize → Option String)
    (st : ServerState) (name : String) (e : TerminalEntry)
    (he : assocLookup st.registry name = some e)
    (hfail : rasterize e.buffer e.size = none) :
    getSnapshot strip rasterize st name SnapshotFormat.svg =
      HttpResult.ok
        { text := strip e.buffer, raw := e.buffer,
          lines := jsSliceLast (splitNL (strip e.buffer)) (e.size.rows * 3),
          size := e.size, alive := e.alive, exitCode := e.exitCode, svg := none } ∧
    getSnapshot strip rasterize st name SnapshotFormat.svg =
      getSnapshot strip rasterize st name SnapshotFormat.json := by
  constructor
  · simp [getSnapshot, he, hfail]
  · simp [getSnapshot, he, hfail]

/-- Witness for C9 at a concrete input: the always-failing rasterizer on the
live sample session. -/
theorem snapshot_svg_failure_graceful_witness :
    getSnapshot id noRaster stLive "t" SnapshotFormat.svg =
      getSnapshot id noRaster stLive "t" SnapshotFormat.json :=
  (snapshot_svg_failure_graceful id noRaster stLive "t" entryLive rfl rfl).2

/-- C10: inbound WebSocket input messages are silently discarded when
malformed (parse failure), when naming an unknown session, or when naming a
non-live session: no backend write happens, the server state is unchanged,
and no message is sent back to the observer. -/
theorem ws_input_silent_discard (st : ServerState) (m : WsInbound) :
    (handleWsMessage st none = (st, [], [])) ∧
    (∀ n d, m.type = "input" → m.name = some n → m.data = some d →
      assocLookup st.registry n = none →
      handleWsMessage st (some m) = (st, [], [])) ∧
    (∀ n d e, m.type = "input" → m.name = some n → m.data = some d →
      assocLookup st.registry n = some e → e.alive = false →
      handleWsMessage st (some m) = (st, [], [])) := by
  refine ⟨rfl, fun n d ht hn hd hl => ?_, fun n d e ht hn hd hl ha => ?_⟩
  · by_cases hc : m.type = "input" ∧ truthyStr m.name = true ∧ truthyChars m.data = true
    · simp only [handleWsMessage, if_pos hc, hn, hd, hl, ite_self]
    · simp only [handleWsMessage, if_neg hc]
  · by_cases hc : m.type = "input" ∧ truthyStr m.name = true ∧ truthyChars m.data = true
    · simp only [handleWsMessage, if_pos hc, hn, hd, hl, ha, Bool.false_eq_true, if_false,
        ite_self]
    · simp only [handleWsMessage, if_neg hc]

/-- Witness for C10 at concrete inputs: a malformed message, an input message
for an unknown name, and an input message for the dead sample session. -/
theorem ws_input_silent_discard_witness :
    handleWsMessage stEmpty none = (stEmpty, [], []) ∧
    handleWsMessage stEmpty (some ⟨"input", some "t", some ['x']⟩) = (stEmpty, [], []) ∧
    handleWsMessage stDead (some ⟨"input", some "t", some ['x']⟩) = (stDead, [], []) :=
  ⟨(ws_input_silent_discard stEmpty ⟨"input", some "t", some ['x']⟩).1,
   (ws_input_silent_discard stEmpty ⟨"input", some "t", some ['x']⟩).2.1 "t" ['x'] rfl rfl rfl rfl,
   (ws_input_silent_discard stDead ⟨"input", some "t", some ['x']⟩).2.2 "t" ['x'] entryDead
     rfl rfl rfl rfl rfl⟩

end DevTerminal
